import Mathlib

set_option autoImplicit false
set_option maxHeartbeats 1000000

/-!
Shallow embedding of `pkg/tsdb/prometheus/prometheus.go` (the Prometheus
data-source core of Grafana): instance-settings resolution
(`newInstanceSettings`), query dispatch (`Service.QueryData`,
`Service.getDSInfo`) and the error classifier (`IsAPIError`,
`ConvertAPIError`).

External collaborators (the JSON decoder, the SDK's `HTTPClientOptions()`
accessor, the `client.Create` factory, the instance manager and the
time-series executor) are modelled at their boundary: their outcomes are
fields or function parameters, so that the control flow of the embedded
functions is exactly the straight-line Go code.
-/

namespace GrafanaProm

/-! ## Go error values

A Go `error` relevant to this file is either a structured Prometheus API
error (`*apiv1.Error`, carrying `Type`, `Msg` and `Detail`, with no
`Unwrap`), a plain leaf error (`errors.New` / `fmt.Errorf` without `%w`),
or a wrapping error produced by `fmt.Errorf("<context>%w", err)`, whose
text is the context prefix followed by the wrapped error's text and whose
`Unwrap` returns the cause. -/

inductive GoError where
  /-- `*apiv1.Error` with fields `Type`, `Msg`, `Detail`; its `Error()` is `Type ++ ": " ++ Msg`. -/
  | api (typ msg detail : String) : GoError
  /-- A leaf error with a fixed message and no wrapped cause. -/
  | plain (text : String) : GoError
  /-- `fmt.Errorf("<prefix>%w", cause)`: text is `prefix ++ cause.text`, `Unwrap` gives `cause`. -/
  | wrap (prefixText : String) (cause : GoError) : GoError
deriving DecidableEq, Repr

/-- The `Error()` string of a Go error value. -/
def GoError.text : GoError → String
  | .api typ msg _ => typ ++ ": " ++ msg
  | .plain s => s
  | .wrap p cause => p ++ cause.text

/-- The unwrap chain of an error: the error itself followed by its causes,
outermost first.  This is the sequence `errors.As` walks. -/
def GoError.chain : GoError → List GoError
  | .api typ msg detail => [.api typ msg detail]
  | .plain s => [.plain s]
  | .wrap p cause => .wrap p cause :: GoError.chain cause

/-- Whether an error value is itself (not merely wraps) an `*apiv1.Error`. -/
def GoError.isAPILeaf : GoError → Bool
  | .api _ _ _ => true
  | _ => false

/-- `errors.As(err, &e)` with `e : *apiv1.Error`: walk the unwrap chain,
outermost first, and return the fields `(Type, Msg, Detail)` of the first
`*apiv1.Error` found, if any.  Go matches by concrete type, not by message
text, which is exactly this structural search. -/
def errorsAsAPIError : GoError → Option (String × String × String)
  | .api typ msg detail => some (typ, msg, detail)
  | .plain _ => none
  | .wrap _ cause => errorsAsAPIError cause

/-- `IsAPIError` from prometheus.go: whether err is or wraps a Prometheus
API error, decided by `errors.As`. -/
def IsAPIError (err : GoError) : Bool :=
  (errorsAsAPIError err).isSome

/-- `ConvertAPIError` from prometheus.go: if the chain holds an
`*apiv1.Error` `e`, return `fmt.Errorf("%s: %s", e.Msg, e.Detail)`;
otherwise return `err` itself. -/
def ConvertAPIError (err : GoError) : GoError :=
  match errorsAsAPIError err with
  | some (_, msg, detail) => .plain (msg ++ ": " ++ detail)
  | none => err

/-! ## JSON values and the decoded settings map

`json.Unmarshal(settings.JSONData, &jsonData)` with
`jsonData : map[string]interface{}`.  A JSON `null` decodes to a nil
interface value, and indexing a Go map at a missing key also yields the
nil interface, so the two are indistinguishable to the code below; we
model Go map indexing accordingly. -/

inductive JsonValue where
  | null : JsonValue
  | bool (b : Bool) : JsonValue
  | num (n : Int) : JsonValue
  | str (s : String) : JsonValue
  | arr (elems : List JsonValue) : JsonValue
  | obj (fields : List (String × JsonValue)) : JsonValue

/-- The decoded `map[string]interface{}` (no duplicate keys after decode). -/
abbrev JsonMap := List (String × JsonValue)

/-- First binding of a key in the decoded map. -/
def lookupKey (k : String) : JsonMap → Option JsonValue
  | [] => none
  | (k₂, v) :: rest => if k₂ = k then some v else lookupKey k rest

/-- Go map indexing `m[k]` on `map[string]interface{}`: a missing key
yields the nil interface value, which coincides with a stored JSON null. -/
def goMapIndex (m : JsonMap) (k : String) : JsonValue :=
  match lookupKey k m with
  | none => .null
  | some v => v

/-- Whether a decoded JSON value is the nil interface (JSON null / missing). -/
def JsonValue.isNull : JsonValue → Bool
  | .null => true
  | _ => false

/-- Whether a decoded JSON value type-asserts to a Go string. -/
def JsonValue.isString : JsonValue → Bool
  | .str _ => true
  | _ => false

/-! ## HTTP client options and instance settings -/

/-- The SDK's SigV4 configuration block (`httpclient.SigV4Config`); fields
other than `service` are carried along untouched by this file, a
representative subset is modelled. -/
structure SigV4Config where
  authType : String
  accessKey : String
  secretKey : String
  region : String
  service : String
deriving DecidableEq, Repr

/-- The SDK's `httpclient.Options`; the code under verification reads and
writes only the `sigV4` pointer, the other fields stand for the rest of
the options and must pass through untouched. -/
structure HttpClientOptions where
  basicAuth : Option (String × String)
  headers : List (String × String)
  sigV4 : Option SigV4Config
deriving DecidableEq, Repr

/-- `backend.DataSourceInstanceSettings` as consumed by the factory.
`jsonData` is the outcome of `json.Unmarshal` on the raw `JSONData` bytes
and `httpClientOptions` the outcome of the SDK accessor
`settings.HTTPClientOptions()`; both are external decoding steps, so the
model records their result (value or error) rather than re-implementing
them. -/
structure DataSourceInstanceSettings where
  id : Int
  url : String
  jsonData : Except GoError JsonMap
  httpClientOptions : Except GoError HttpClientOptions

/-- The constructed Prometheus client handle returned by `client.Create`
(opaque to this file). -/
structure PromClient where
  handle : Nat
deriving DecidableEq, Repr

/-- `DatasourceInfo` as constructed in prometheus.go: instance id, URL,
resolved time interval and the constructed client. -/
structure DatasourceInfo where
  id : Int
  url : String
  timeInterval : String
  promClient : PromClient
deriving DecidableEq, Repr

/-- The signature of `client.Create(url, httpCliOpts, provider, jsonData, log)`:
the provider and logger are ambient and carry no data relevant here, so the
factory function takes the url, the (already normalized) options and the
decoded settings map. -/
abbrev CreateFn := String → HttpClientOptions → JsonMap → Except GoError PromClient

/-- The SigV4 normalization step of `newInstanceSettings`:
`if httpCliOpts.SigV4 != nil { httpCliOpts.SigV4.Service = "aps" }`. -/
def setSigV4Service (opts : HttpClientOptions) : HttpClientOptions :=
  match opts.sigV4 with
  | none => opts
  | some sig => { opts with sigV4 := some { sig with service := "aps" } }

/-- The time-interval step of `newInstanceSettings`:
`timeInterval := ""` then, if `jsonData["timeInterval"]` is non-nil, it
must type-assert to a string, else
`errors.New("invalid time-interval provided")`. -/
def timeIntervalStep (jsonData : JsonMap) : Except GoError String :=
  match goMapIndex jsonData "timeInterval" with
  | .null => .ok ""
  | .str s => .ok s
  | _ => .error (.plain "invalid time-interval provided")

/-- `newInstanceSettings(httpClientProvider)`'s returned factory closure,
line by line: decode settings (wrap failures with
"error reading settings: "), read the HTTP options (wrap failures with
"error getting http options: "), force the SigV4 service namespace,
validate the time interval, build the client via `client.Create`
(failures returned as-is), and assemble the `DatasourceInfo`. -/
def newInstanceSettings (create : CreateFn) (settings : DataSourceInstanceSettings) :
    Except GoError DatasourceInfo :=
  match settings.jsonData with
  | .error err => .error (.wrap "error reading settings: " err)
  | .ok jsonData =>
    match settings.httpClientOptions with
    | .error err => .error (.wrap "error getting http options: " err)
    | .ok opts =>
      let httpCliOpts := setSigV4Service opts
      match timeIntervalStep jsonData with
      | .error err => .error err
      | .ok timeInterval =>
        match create settings.url httpCliOpts jsonData with
        | .error err => .error err
        | .ok promClient =>
          .ok { id := settings.id, url := settings.url,
                timeInterval := timeInterval, promClient := promClient }

/-- The factory body strictly before the `client.Create` call: either the
early error, or the exact argument triple handed to `client.Create`
together with the validated time interval.  `client.Create` is invoked in
a run of `newInstanceSettings` iff this stage returns `.ok`. -/
def instanceFactoryPre (settings : DataSourceInstanceSettings) :
    Except GoError (String × HttpClientOptions × JsonMap × String) :=
  match settings.jsonData with
  | .error err => .error (.wrap "error reading settings: " err)
  | .ok jsonData =>
    match settings.httpClientOptions with
    | .error err => .error (.wrap "error getting http options: " err)
    | .ok opts =>
      match timeIntervalStep jsonData with
      | .error err => .error err
      | .ok timeInterval =>
        .ok (settings.url, setSigV4Service opts, jsonData, timeInterval)

/-- `newInstanceSettings` is the pre-`client.Create` stage followed by the
`client.Create` call on exactly the arguments that stage produced. -/
theorem newInstanceSettings_stage (create : CreateFn)
    (settings : DataSourceInstanceSettings) :
    newInstanceSettings create settings =
      match instanceFactoryPre settings with
      | .error err => .error err
      | .ok (url, opts, jsonData, timeInterval) =>
        match create url opts jsonData with
        | .error err => .error err
        | .ok promClient =>
          .ok { id := settings.id, url := url,
                timeInterval := timeInterval, promClient := promClient } := by
  unfold newInstanceSettings instanceFactoryPre
  cases settings.jsonData with
  | error e => rfl
  | ok jd =>
    cases settings.httpClientOptions with
    | error e => rfl
    | ok opts =>
      cases h : timeIntervalStep jd <;> simp [h]

/-! ## The dispatcher: `Service.QueryData` and `Service.getDSInfo`

The instance manager `im` (from the plugin SDK) and the time-series
executor `executeTimeSeriesQuery` (a sibling file of the package) are
external at this boundary; a `Service` carries their behaviour as
functions.  Go's `(*backend.QueryDataResponse, error)` return pair is a
pair of `Option`s: `none` is a nil pointer / nil error. -/

/-- `backend.PluginContext`: the opaque per-call key identifying the
data-source instance. -/
structure PluginContext where
  orgId : Int
  dsId : Int
deriving DecidableEq, Repr

/-- `backend.DataQuery` as far as this file reads it: only `QueryType`
is consulted; `refId` stands for the remaining query payload. -/
structure DataQuery where
  refId : String
  queryType : String
deriving DecidableEq, Repr

/-- `backend.QueryDataRequest`: plugin context plus ordered query batch. -/
structure QueryDataRequest where
  pluginContext : PluginContext
  queries : List DataQuery
deriving DecidableEq, Repr

/-- `backend.QueryDataResponse`: per-refId results.  `{ responses := [] }`
is the zero value `&backend.QueryDataResponse{}`; payloads are opaque
strings. -/
structure QueryDataResponse where
  responses : List (String × String)
deriving DecidableEq, Repr

/-- The `Service` struct at the dispatcher boundary: `imGet` models
`s.im.Get(pluginCtx)` followed by the `i.(DatasourceInfo)` assertion (the
cache only ever stores `DatasourceInfo`, so the downcast is typed away),
and `executeTimeSeriesQuery` models the time-series handling path. -/
structure Service where
  imGet : PluginContext → Except GoError DatasourceInfo
  executeTimeSeriesQuery :
    QueryDataRequest → DatasourceInfo → Option QueryDataResponse × Option GoError

/-- `Service.getDSInfo`: fetch from the instance cache, propagate errors,
return the instance by value. -/
def Service.getDSInfo (s : Service) (pluginCtx : PluginContext) :
    Except GoError DatasourceInfo :=
  match s.imGet pluginCtx with
  | .error err => .error err
  | .ok instance₀ => .ok instance₀

/-- `Service.QueryData`, line by line: empty batch returns the zero-value
response with `fmt.Errorf("query contains no queries")`; otherwise take
the first query, resolve the instance (nil response on failure), and
switch on `q.QueryType`, where `"timeSeriesQuery"` falls through to the
default branch, so every tag runs `executeTimeSeriesQuery`. -/
def Service.QueryData (s : Service) (req : QueryDataRequest) :
    Option QueryDataResponse × Option GoError :=
  match req.queries with
  | [] => (some { responses := [] }, some (.plain "query contains no queries"))
  | q :: _ =>
    match s.getDSInfo req.pluginContext with
    | .error err => (none, some err)
    | .ok dsInfo =>
      match q.queryType with
      | _ => s.executeTimeSeriesQuery req dsInfo

/-! ## Concrete example values (used by the witness theorems) -/

def exPluginContext : PluginContext := { orgId := 1, dsId := 42 }

def exClient : PromClient := { handle := 7 }

def exDSInfo : DatasourceInfo :=
  { id := 42, url := "http://prom:9090", timeInterval := "30s", promClient := exClient }

def exOptsNoSig : HttpClientOptions :=
  { basicAuth := none, headers := [("X-Grafana-Org", "1")], sigV4 := none }

def exSig : SigV4Config :=
  { authType := "keys", accessKey := "AK", secretKey := "SK",
    region := "us-east-1", service := "host-supplied-value" }

def exOptsSig : HttpClientOptions :=
  { basicAuth := none, headers := [], sigV4 := some exSig }

/-- A decoded settings map with no "timeInterval" key. -/
def exJdNoTI : JsonMap := [("httpMethod", .str "POST")]

/-- A decoded settings map binding "timeInterval" to a JSON number. -/
def exJdBadTI : JsonMap := [("timeInterval", .num 15)]

/-- A decoded settings map binding "timeInterval" to the string "1m". -/
def exJdTI : JsonMap := [("timeInterval", .str "1m")]

def exSettingsNoTI : DataSourceInstanceSettings :=
  { id := 42, url := "http://prom:9090",
    jsonData := .ok exJdNoTI, httpClientOptions := .ok exOptsNoSig }

def exSettingsBadTI : DataSourceInstanceSettings :=
  { id := 42, url := "http://prom:9090",
    jsonData := .ok exJdBadTI, httpClientOptions := .ok exOptsNoSig }

def exSettingsSig : DataSourceInstanceSettings :=
  { id := 42, url := "http://prom:9090",
    jsonData := .ok exJdTI, httpClientOptions := .ok exOptsSig }

def exSettingsParseErr : DataSourceInstanceSettings :=
  { id := 42, url := "http://prom:9090",
    jsonData := .error (.plain "unexpected end of JSON input"),
    httpClientOptions := .ok exOptsNoSig }

def exSettingsHttpErr : DataSourceInstanceSettings :=
  { id := 42, url := "http://prom:9090",
    jsonData := .ok exJdNoTI,
    httpClientOptions := .error (.plain "invalid tls configuration") }

def exCreateOk : CreateFn := fun _ _ _ => .ok exClient

def exCreateBoom : CreateFn := fun _ _ _ => .error (.plain "boom")

def exSvcOk : Service :=
  { imGet := fun _ => .ok exDSInfo,
    executeTimeSeriesQuery := fun _ _ => (some { responses := [("A", "series")] }, none) }

def exSvcErr : Service :=
  { imGet := fun _ => .error (.plain "no cached instance"),
    executeTimeSeriesQuery := fun _ _ => (none, some (.plain "unreached")) }

def exReqEmpty : QueryDataRequest :=
  { pluginContext := exPluginContext, queries := [] }

def exQueryUntyped : DataQuery := { refId := "A", queryType := "" }

def exReqUntyped : QueryDataRequest :=
  { pluginContext := exPluginContext, queries := [exQueryUntyped] }

/-! ## Helper lemmas -/

/-- The first `*apiv1.Error` found by scanning the unwrap chain, outermost
first, is exactly what `errors.As` returns. -/
theorem chain_find_api (err : GoError) :
    err.chain.find? GoError.isAPILeaf =
      match errorsAsAPIError err with
      | some (typ, msg, detail) => some (GoError.api typ msg detail)
      | none => none := by
  induction err with
  | api typ msg detail =>
    simp [GoError.chain, errorsAsAPIError, List.find?, GoError.isAPILeaf]
  | plain s =>
    simp [GoError.chain, errorsAsAPIError, List.find?, GoError.isAPILeaf]
  | wrap p cause ih =>
    simp only [GoError.chain, List.find?, GoError.isAPILeaf, errorsAsAPIError]
    exact ih

/-! ## Claims -/

/-- C1: on a query batch with an empty `Queries` list, `QueryData` returns
the zero-value response with the error "query contains no queries", and
its outcome is independent of the instance cache and of the executor:
two services differing arbitrarily in `imGet` (hence `getDSInfo`) and
`executeTimeSeriesQuery` produce the same result, so instance resolution
and client construction are never invoked for that call. -/
theorem queryData_empty_fails_before_resolution
    (s₁ s₂ : Service) (req : QueryDataRequest) (h : req.queries = []) :
    s₁.QueryData req =
      (some { responses := [] }, some (GoError.plain "query contains no queries")) ∧
    s₁.QueryData req = s₂.QueryData req := by
  constructor <;> simp [Service.QueryData, h]

/-- Witness for C1 at the concrete empty request, with one service whose
cache fails and one whose cache succeeds. -/
theorem queryData_empty_fails_before_resolution_witness :
    exReqEmpty.queries = [] ∧
    (exSvcErr.QueryData exReqEmpty =
       (some { responses := [] }, some (GoError.plain "query contains no queries")) ∧
     exSvcErr.QueryData exReqEmpty = exSvcOk.QueryData exReqEmpty) :=
  ⟨rfl, queryData_empty_fails_before_resolution exSvcErr exSvcOk exReqEmpty rfl⟩

/-- C2: if the raw settings decode successfully to a map in which
"timeInterval" is missing or null (the nil interface), the time-interval
step succeeds with the empty string, and any successfully resolved
`DatasourceInfo` for those settings has `TimeInterval = ""`. -/
theorem newInstanceSettings_missing_timeInterval
    (settings : DataSourceInstanceSettings) (jd : JsonMap)
    (hjd : settings.jsonData = Except.ok jd)
    (hmiss : goMapIndex jd "timeInterval" = JsonValue.null) :
    timeIntervalStep jd = Except.ok "" ∧
    ∀ (create : CreateFn) (info : DatasourceInfo),
      newInstanceSettings create settings = Except.ok info → info.timeInterval = "" := by
  have hti : timeIntervalStep jd = Except.ok "" := by
    unfold timeIntervalStep
    rw [hmiss]
  refine ⟨hti, ?_⟩
  intro create info hok
  unfold newInstanceSettings at hok
  rw [hjd] at hok
  cases hcl : settings.httpClientOptions with
  | error e =>
    rw [hcl] at hok
    simp at hok
  | ok opts =>
    rw [hcl] at hok
    simp only [hti] at hok
    cases hc : create settings.url (setSigV4Service opts) jd with
    | error e =>
      rw [hc] at hok
      simp at hok
    | ok promClient =>
      rw [hc] at hok
      simp at hok
      rw [← hok]

/-- Witness for C2 at concrete settings whose map has no "timeInterval". -/
theorem newInstanceSettings_missing_timeInterval_witness :
    exSettingsNoTI.jsonData = Except.ok exJdNoTI ∧
    goMapIndex exJdNoTI "timeInterval" = JsonValue.null ∧
    (timeIntervalStep exJdNoTI = Except.ok "" ∧
     ∀ (create : CreateFn) (info : DatasourceInfo),
       newInstanceSettings create exSettingsNoTI = Except.ok info →
         info.timeInterval = "") :=
  ⟨rfl, rfl, newInstanceSettings_missing_timeInterval exSettingsNoTI exJdNoTI rfl rfl⟩

/-- C3: if the decoded map binds "timeInterval" to a value that is neither
null nor a string, the factory fails with exactly
"invalid time-interval provided" for every possible client factory, and
the pre-`client.Create` stage already fails, so `client.Create` is never
reached (cf. `newInstanceSettings_stage`). -/
theorem newInstanceSettings_nonstring_timeInterval
    (settings : DataSourceInstanceSettings) (jd : JsonMap)
    (opts : HttpClientOptions) (v : JsonValue)
    (hjd : settings.jsonData = Except.ok jd)
    (hopts : settings.httpClientOptions = Except.ok opts)
    (hv : goMapIndex jd "timeInterval" = v)
    (hnull : v.isNull = false)
    (hstr : v.isString = false) :
    (∀ create : CreateFn,
       newInstanceSettings create settings =
         Except.error (GoError.plain "invalid time-interval provided")) ∧
    instanceFactoryPre settings =
      Except.error (GoError.plain "invalid time-interval provided") := by
  have hti : timeIntervalStep jd =
      Except.error (GoError.plain "invalid time-interval provided") := by
    unfold timeIntervalStep
    rw [hv]
    cases v with
    | null => simp [JsonValue.isNull] at hnull
    | str s => simp [JsonValue.isString] at hstr
    | bool b => rfl
    | num n => rfl
    | arr elems => rfl
    | obj fields => rfl
  constructor
  · intro create
    unfold newInstanceSettings
    rw [hjd, hopts]
    simp only [hti]
  · unfold instanceFactoryPre
    rw [hjd, hopts]
    simp only [hti]

/-- Witness for C3 at concrete settings binding "timeInterval" to the
JSON number 15. -/
theorem newInstanceSettings_nonstring_timeInterval_witness :
    exSettingsBadTI.jsonData = Except.ok exJdBadTI ∧
    exSettingsBadTI.httpClientOptions = Except.ok exOptsNoSig ∧
    goMapIndex exJdBadTI "timeInterval" = JsonValue.num 15 ∧
    (JsonValue.num 15).isNull = false ∧
    (JsonValue.num 15).isString = false ∧
    ((∀ create : CreateFn,
        newInstanceSettings create exSettingsBadTI =
          Except.error (GoError.plain "invalid time-interval provided")) ∧
     instanceFactoryPre exSettingsBadTI =
       Except.error (GoError.plain "invalid time-interval provided")) :=
  ⟨rfl, rfl, rfl, rfl, rfl,
   newInstanceSettings_nonstring_timeInterval exSettingsBadTI exJdBadTI
     exOptsNoSig (JsonValue.num 15) rfl rfl rfl rfl rfl⟩

/-- C4: when the HTTP client options carry a SigV4 block, the factory's
normalization step forces its `Service` field to "aps" no matter what the
host supplied, and that normalized options value is exactly what the
factory hands to `client.Create` (the pre-stage output); when no SigV4
block is present the normalization leaves the options untouched. -/
theorem newInstanceSettings_sigv4_forced
    (settings : DataSourceInstanceSettings) (jd : JsonMap)
    (opts : HttpClientOptions) (sig : SigV4Config) (ti : String)
    (hjd : settings.jsonData = Except.ok jd)
    (hopts : settings.httpClientOptions = Except.ok opts)
    (hsig : opts.sigV4 = some sig)
    (hti : timeIntervalStep jd = Except.ok ti) :
    (setSigV4Service opts).sigV4 = some { sig with service := "aps" } ∧
    instanceFactoryPre settings =
      Except.ok (settings.url, setSigV4Service opts, jd, ti) ∧
    (∀ opts₂ : HttpClientOptions,
       setSigV4Service { opts₂ with sigV4 := none } = { opts₂ with sigV4 := none }) := by
  refine ⟨?_, ?_, ?_⟩
  · unfold setSigV4Service
    rw [hsig]
  · unfold instanceFactoryPre
    rw [hjd, hopts]
    simp only [hti]
  · intro opts₂
    unfold setSigV4Service
    rfl

/-- Witness for C4 at concrete settings whose options carry a SigV4 block
with a host-supplied service value. -/
theorem newInstanceSettings_sigv4_forced_witness :
    exSettingsSig.jsonData = Except.ok exJdTI ∧
    exSettingsSig.httpClientOptions = Except.ok exOptsSig ∧
    exOptsSig.sigV4 = some exSig ∧
    timeIntervalStep exJdTI = Except.ok "1m" ∧
    ((setSigV4Service exOptsSig).sigV4 = some { exSig with service := "aps" } ∧
     instanceFactoryPre exSettingsSig =
       Except.ok (exSettingsSig.url, setSigV4Service exOptsSig, exJdTI, "1m") ∧
     (∀ opts₂ : HttpClientOptions,
        setSigV4Service { opts₂ with sigV4 := none } = { opts₂ with sigV4 := none })) :=
  ⟨rfl, rfl, rfl, rfl,
   newInstanceSettings_sigv4_forced exSettingsSig exJdTI exOptsSig exSig "1m"
     rfl rfl rfl rfl⟩

/-- C5: `ConvertAPIError` returns the fused error `"<Msg>: <Detail>"` of
the first `*apiv1.Error` in the unwrap chain when one is present, and the
input error itself otherwise; correspondingly its `Error()` text is the
fused message, or the input's own text when the chain holds no API
error. -/
theorem convertAPIError_characterization (err : GoError) :
    ConvertAPIError err =
      (match err.chain.find? GoError.isAPILeaf with
       | some (GoError.api _ msg detail) => GoError.plain (msg ++ ": " ++ detail)
       | _ => err) ∧
    (ConvertAPIError err).text =
      (match err.chain.find? GoError.isAPILeaf with
       | some (GoError.api _ msg detail) => msg ++ ": " ++ detail
       | _ => err.text) := by
  have hf := chain_find_api err
  cases h : errorsAsAPIError err with
  | none =>
    rw [h] at hf
    simp [ConvertAPIError, h, hf]
  | some trip =>
    obtain ⟨typ, msg, detail⟩ := trip
    rw [h] at hf
    simp [ConvertAPIError, h, hf, GoError.text]

/-- C6: `IsAPIError` is true exactly when some member of the unwrap chain
is itself a `*apiv1.Error`; in particular it is false on every error whose
chain holds no such value (plain transport, network or cancellation
errors), since the decision walks wrapped causes structurally rather than
inspecting message strings. -/
theorem isAPIError_iff_chain_has_api (err : GoError) :
    IsAPIError err = err.chain.any GoError.isAPILeaf := by
  induction err with
  | api typ msg detail =>
    simp [IsAPIError, errorsAsAPIError, GoError.chain, GoError.isAPILeaf]
  | plain s =>
    simp [IsAPIError, errorsAsAPIError, GoError.chain, GoError.isAPILeaf]
  | wrap p cause ih =>
    simpa [IsAPIError, errorsAsAPIError, GoError.chain, GoError.isAPILeaf] using ih

/-- C7: on a non-empty batch whose instance resolves, dispatch runs the
time-series path on the whole request and the resolved instance, whatever
the first query's `QueryType` is (the switch sends "timeSeriesQuery" and
every other tag, including the empty one, to the same branch), so no tag
value is rejected; queries after the first are never consulted for
routing. -/
theorem queryData_routes_all_types_to_timeseries
    (s : Service) (req : QueryDataRequest) (q : DataQuery)
    (rest : List DataQuery) (dsInfo : DatasourceInfo)
    (hq : req.queries = q :: rest)
    (hds : s.imGet req.pluginContext = Except.ok dsInfo) :
    s.QueryData req = s.executeTimeSeriesQuery req dsInfo := by
  simp [Service.QueryData, Service.getDSInfo, hq, hds]

/-- Witness for C7 at the spec's scenario: a one-query batch whose query
carries the unspecified (empty) query-type tag is routed to the
time-series path. -/
theorem queryData_routes_all_types_to_timeseries_witness :
    exReqUntyped.queries = [exQueryUntyped] ∧
    exSvcOk.imGet exReqUntyped.pluginContext = Except.ok exDSInfo ∧
    exSvcOk.QueryData exReqUntyped =
      exSvcOk.executeTimeSeriesQuery exReqUntyped exDSInfo :=
  ⟨rfl, rfl,
   queryData_routes_all_types_to_timeseries exSvcOk exReqUntyped
     exQueryUntyped [] exDSInfo rfl rfl⟩

/-- C8 counterexample: with well-formed settings and a client factory that
fails with the plain error "boom", `newInstanceSettings` returns exactly
that error value, whose text is still just "boom" — not a wrap node
carrying added context the way settings-parse and http-option failures
are wrapped — so the claim that client-factory failures are wrapped with
context "in the same way" is false on the code. -/
theorem clientCreate_error_unwrapped_counterexample :
    newInstanceSettings exCreateBoom exSettingsNoTI =
      Except.error (GoError.plain "boom") ∧
    (GoError.plain "boom").text = "boom" ∧
    newInstanceSettings exCreateBoom exSettingsNoTI ≠
      Except.error (GoError.wrap "error creating client: " (GoError.plain "boom")) := by
  refine ⟨rfl, rfl, ?_⟩
  intro h
  rw [show newInstanceSettings exCreateBoom exSettingsNoTI =
        Except.error (GoError.plain "boom") from rfl] at h
  exact GoError.noConfusion (Except.error.inj h)

/-- C8 amended: no construction error is swallowed, but the three stages
differ in shape — a settings-parse failure comes back wrapped with
"error reading settings: ", an HTTP-option failure wrapped with
"error getting http options: ", while a `client.Create` failure is
propagated to the caller unchanged, with no added context. -/
theorem factory_error_propagation
    (s₁ s₂ s₃ : DataSourceInstanceSettings) (create : CreateFn)
    (e₁ e₂ e₃ : GoError) (jd₂ : JsonMap)
    (url : String) (opts : HttpClientOptions) (jd : JsonMap) (ti : String)
    (h₁ : s₁.jsonData = Except.error e₁)
    (h₂j : s₂.jsonData = Except.ok jd₂)
    (h₂ : s₂.httpClientOptions = Except.error e₂)
    (hpre : instanceFactoryPre s₃ = Except.ok (url, opts, jd, ti))
    (hcr : create url opts jd = Except.error e₃) :
    newInstanceSettings create s₁ =
      Except.error (GoError.wrap "error reading settings: " e₁) ∧
    newInstanceSettings create s₂ =
      Except.error (GoError.wrap "error getting http options: " e₂) ∧
    newInstanceSettings create s₃ = Except.error e₃ := by
  refine ⟨?_, ?_, ?_⟩
  · unfold newInstanceSettings
    rw [h₁]
  · unfold newInstanceSettings
    rw [h₂j, h₂]
  · rw [newInstanceSettings_stage, hpre]
    simp only [hcr]

/-- Witness for the amended C8 at three concrete settings values: one
whose JSON fails to decode, one whose HTTP options fail, and one that
reaches a client factory failing with "boom". -/
theorem factory_error_propagation_witness :
    exSettingsParseErr.jsonData =
      Except.error (GoError.plain "unexpected end of JSON input") ∧
    exSettingsHttpErr.jsonData = Except.ok exJdNoTI ∧
    exSettingsHttpErr.httpClientOptions =
      Except.error (GoError.plain "invalid tls configuration") ∧
    instanceFactoryPre exSettingsNoTI =
      Except.ok ("http://prom:9090", exOptsNoSig, exJdNoTI, "") ∧
    exCreateBoom "http://prom:9090" exOptsNoSig exJdNoTI =
      Except.error (GoError.plain "boom") ∧
    (newInstanceSettings exCreateBoom exSettingsParseErr =
       Except.error (GoError.wrap "error reading settings: "
         (GoError.plain "unexpected end of JSON input")) ∧
     newInstanceSettings exCreateBoom exSettingsHttpErr =
       Except.error (GoError.wrap "error getting http options: "
         (GoError.plain "invalid tls configuration")) ∧
     newInstanceSettings exCreateBoom exSettingsNoTI =
       Except.error (GoError.plain "boom")) :=
  ⟨rfl, rfl, rfl, rfl, rfl,
   factory_error_propagation exSettingsParseErr exSettingsHttpErr exSettingsNoTI
     exCreateBoom (GoError.plain "unexpected end of JSON input")
     (GoError.plain "invalid tls configuration") (GoError.plain "boom")
     exJdNoTI "http://prom:9090" exOptsNoSig exJdNoTI ""
     rfl rfl rfl rfl rfl⟩

/-- C10: an empty batch yields a non-nil (zero-value) response paired with
the "query contains no queries" error, while a non-empty batch whose
instance resolution fails yields a nil response paired with that error —
so a caller cannot equate "response pointer is nil" with "an error was
returned". -/
theorem queryData_response_nilness
    (s : Service) (req₁ req₂ : QueryDataRequest) (e : GoError)
    (h₁ : req₁.queries = [])
    (h₂ : req₂.queries ≠ [])
    (hds : s.imGet req₂.pluginContext = Except.error e) :
    s.QueryData req₁ =
      (some { responses := [] }, some (GoError.plain "query contains no queries")) ∧
    s.QueryData req₂ = (none, some e) := by
  constructor
  · simp [Service.QueryData, h₁]
  · cases hq : req₂.queries with
    | nil => exact absurd hq h₂
    | cons q rest => simp [Service.QueryData, Service.getDSInfo, hq, hds]

/-- Witness for C10 with the concrete empty request and a one-query
request against a service whose instance cache fails. -/
theorem queryData_response_nilness_witness :
    exReqEmpty.queries = [] ∧
    exReqUntyped.queries ≠ [] ∧
    exSvcErr.imGet exReqUntyped.pluginContext =
      Except.error (GoError.plain "no cached instance") ∧
    (exSvcErr.QueryData exReqEmpty =
       (some { responses := [] }, some (GoError.plain "query contains no queries")) ∧
     exSvcErr.QueryData exReqUntyped =
       (none, some (GoError.plain "no cached instance"))) :=
  ⟨rfl, by decide, rfl,
   queryData_response_nilness exSvcErr exReqEmpty exReqUntyped
     (GoError.plain "no cached instance") rfl (by decide) rfl⟩

end GrafanaProm
